import Mathlib

/-!
Shallow embedding of `pkg/configuration/configuration.go` from the
registration-service repository, together with proofs about the
configuration facade it implements.

The facade stores non-secret values in a spf13/viper key/value store and
secret values in a separate string map.  The viper library itself is not
part of this repository; its merged-view lookup is modelled from the
spec's contract (an explicit file value overrides an environment value,
which overrides a config-map value, which overrides a registered
default).  Everything else (the registered defaults, the construction
sequence `LoadConfig` / `initConfig` / `New`, the accessors, and the
derived excluded-domain list) is translated directly from the Go source.
-/

/-- Typed configuration values: the store maps each dot-separated key to a
string, boolean, integer or duration value (durations are in
nanoseconds, as in Go's `time.Duration`). -/
inductive CVal where
  | vStr (s : String)
  | vBool (b : Bool)
  | vInt (n : Int)
  | vDur (ns : Int)
deriving DecidableEq

/-- Association-list maps used for every keyed store in the model. -/
abbrev KVMap := List (String × CVal)

/-- Lookup in an association list (first binding wins). -/
def assocGet {β : Type} (m : List (String × β)) (k : String) : Option β :=
  match m with
  | [] => none
  | p :: rest => if p.1 = k then some p.2 else assocGet rest k

/-- Update-or-append in an association list. -/
def assocSet {β : Type} (m : List (String × β)) (k : String) (x : β) :
    List (String × β) :=
  match m with
  | [] => [(k, x)]
  | p :: rest => if p.1 = k then (k, x) :: rest else p :: assocSet rest k x

/-- Prefix used for environment variable name binding (`EnvPrefix`). -/
def envPrefixVal : String := "REGISTRATION"

def varHTTPAddress : String := "http.address"

/-- Address and port string that the service binds to by default. -/
def DefaultHTTPAddress : String := "0.0.0.0:8080"

/-- Nanoseconds in one second, for `time.Duration` values. -/
def secondNS : Int := 1000000000

def varHTTPIdleTimeout : String := "http.idle_timeout"

def DefaultHTTPIdleTimeout : Int := 15 * secondNS

def varHTTPCompressResponses : String := "http.compress"

def DefaultHTTPCompressResponses : Bool := true

def varEnvironment : String := "environment"

def DefaultEnvironment : String := "prod"

def UnitTestsEnvironment : String := "unit-tests"

def varLogLevel : String := "log.level"

def DefaultLogLevel : String := "info"

def varLogJSON : String := "log.json"

def DefaultLogJSON : Bool := false

def varGracefulTimeout : String := "graceful_timeout"

def DefaultGracefulTimeout : Int := 15 * secondNS

def varHTTPWriteTimeout : String := "http.write_timeout"

def DefaultHTTPWriteTimeout : Int := 15 * secondNS

def varHTTPReadTimeout : String := "http.read_timeout"

def DefaultHTTPReadTimeout : Int := 15 * secondNS

def varAuthClientLibraryURL : String := "auth_client.library_url"

def DefaultAuthClientLibraryURL : String :=
  "http://129.40.58.177:8082/auth/js/keycloak.js"

def varAuthClientConfigRaw : String := "auth_client.config.raw"

/-- Raw auth-client JSON configuration blob (a Go raw-string literal whose
continuation lines each start with a tab). -/
def DefaultAuthClientConfigRaw : String :=
  "\x7b\n\t  \"realm\": \"local\",\n\t  \"auth-server-url\": \"http://129.40.58.177:8082/auth\",\n\t  \"ssl-required\": \"none\",\n\t  \"resource\": \"crt\",\n\t  \"clientId\": \"crt\",\n\t  \"public-client\": true\n\t\x7d"

def varAuthClientConfigContentType : String := "auth_client.config.content_type"

def DefaultAuthClientConfigContentType : String :=
  "application/json; charset=utf-8"

def varAuthClientPublicKeysURL : String := "auth_client.public_keys_url"

def DefaultAuthClientPublicKeysURL : String :=
  "http://129.40.58.177:8082/auth/realms/local/protocol/openid-connect/certs"

def varNamespace : String := "namespace"

def DefaultNamespace : String := "toolchain-host-operator"

def varVerificationEnabled : String := "verification.enabled"

def DefaultVerificationEnabled : Bool := false

def varVerificationDailyLimit : String := "verification.daily_limit"

def DefaultVerificationDailyLimit : Int := 5

def varVerificationAttemptsAllowed : String := "verification.attempts_allowed"

def DefaultVerificationAttemptsAllowed : Int := 3

def varTwilioAccountSID : String := "twilio.account.sid"

def varTwilioAuthToken : String := "twilio.auth.token"

def varTwilioFromNumber : String := "twilio.from_number"

def varVerificationMessageTemplate : String := "verification.message_template"

def DefaultVerificationMessageTemplate : String :=
  "Developer Sandbox for Red Hat OpenShift: Your verification code is %s"

def varVerificationExcludedEmailDomains : String :=
  "verification.excluded_email_domains"

def varVerificationCodeExpiresInMin : String :=
  "verification.code_expires_in_min"

def DefaultVerificationCodeExpiresInMin : Int := 5

def varWoopraDomain : String := "woopra.domain"

def varSegmentWriteKey : String := "segment.write_key"

/-- Modelled from the spec: the environment variable bound to a key is the
key upper-cased, dots replaced with underscores, prefixed with the fixed
prefix string (`SetEnvPrefix` / `SetEnvKeyReplacer` in the source). -/
def envKeyOf (k : String) : String :=
  envPrefixVal ++ "_" ++
    String.mk (k.data.map (fun c => if c = '.' then '_' else c.toUpper))

/-- Modelled from the spec: the state of the spf13/viper key/value store,
whose implementation is not part of this repository.  It holds the
registered defaults, the merged external config map, the bound
environment values (keyed by transformed variable name), and the values
read from the optional YAML file. -/
structure Viper where
  defaults : KVMap
  configMap : KVMap
  envVals : List (String × CVal)
  fileVals : KVMap
deriving DecidableEq

/-- Modelled from the spec: a fresh store (`viper.New()`), before any
defaults are registered and before any file is read; the config-map
layer and the environment binding are ambient inputs of construction. -/
def Viper.new (cm : KVMap) (env : List (String × CVal)) : Viper :=
  { defaults := [], configMap := cm, envVals := env, fileVals := [] }

/-- Register a default value for a key (`v.SetDefault`). -/
def Viper.setDefault (v : Viper) (k : String) (x : CVal) : Viper :=
  { v with defaults := assocSet v.defaults k x }

/-- Read the optional YAML file into the file layer (`v.ReadInConfig`
after `SetConfigFile`); parsing itself is external, so the parsed
key/value data is an input. -/
def Viper.readInConfig (v : Viper) (fd : KVMap) : Viper :=
  { v with fileVals := fd }

/-- Modelled from the spec: merged-view lookup with the fixed, total
precedence — explicit file value overrides environment override
overrides config map overrides registered default. -/
def Viper.get (v : Viper) (k : String) : Option CVal :=
  match assocGet v.fileVals k with
  | some x => some x
  | none =>
    match assocGet v.envVals (envKeyOf k) with
    | some x => some x
    | none =>
      match assocGet v.configMap k with
      | some x => some x
      | none => assocGet v.defaults k

/-- String coercion of an optional value: absence (or a value of another
type) yields the empty string. -/
def asStringD (o : Option CVal) : String :=
  match o with
  | some (.vStr s) => s
  | _ => ""

/-- Boolean coercion of an optional value: absence yields false. -/
def asBoolD (o : Option CVal) : Bool :=
  match o with
  | some (.vBool b) => b
  | _ => false

/-- Integer coercion of an optional value: absence yields 0. -/
def asIntD (o : Option CVal) : Int :=
  match o with
  | some (.vInt n) => n
  | _ => 0

/-- Duration coercion of an optional value: absence yields 0. -/
def asDurD (o : Option CVal) : Int :=
  match o with
  | some (.vDur d) => d
  | _ => 0

def Viper.getString (v : Viper) (k : String) : String := asStringD (v.get k)

def Viper.getBool (v : Viper) (k : String) : Bool := asBoolD (v.get k)

def Viper.getInt (v : Viper) (k : String) : Int := asIntD (v.get k)

def Viper.getDuration (v : Viper) (k : String) : Int := asDurD (v.get k)

/-- Helper for `splitCommaFields`: accumulates the current field in
reverse. -/
def commaFieldsAux : List Char → List Char → List String
  | [], cur => if cur.isEmpty then [] else [String.mk cur.reverse]
  | c :: rest, cur =>
    if c = ',' then
      if cur.isEmpty then commaFieldsAux rest []
      else String.mk cur.reverse :: commaFieldsAux rest []
    else commaFieldsAux rest (c :: cur)

/-- Comma splitting exactly as the source's use of `strings.FieldsFunc`
with a comma predicate: splits on commas and drops empty fields. -/
def splitCommaFields (s : String) : List String :=
  commaFieldsAux s.data []

/-- The configuration object: the viper store, the separate secret string
map, and the cached derived excluded-domain list (`ViperConfig`). -/
structure ViperConfig where
  v : Viper
  secretValues : List (String × String)
  excludedDomains : List String
deriving DecidableEq

/-- Register every default value (`setConfigDefaults`), one `SetDefault`
call per line in source order. -/
def setConfigDefaults (v0 : Viper) : Viper :=
  let v := v0
  let v := v.setDefault varHTTPAddress (.vStr DefaultHTTPAddress)
  let v := v.setDefault varHTTPCompressResponses (.vBool DefaultHTTPCompressResponses)
  let v := v.setDefault varHTTPWriteTimeout (.vDur DefaultHTTPWriteTimeout)
  let v := v.setDefault varHTTPReadTimeout (.vDur DefaultHTTPReadTimeout)
  let v := v.setDefault varHTTPIdleTimeout (.vDur DefaultHTTPIdleTimeout)
  let v := v.setDefault varEnvironment (.vStr DefaultEnvironment)
  let v := v.setDefault varLogLevel (.vStr DefaultLogLevel)
  let v := v.setDefault varLogJSON (.vBool DefaultLogJSON)
  let v := v.setDefault varGracefulTimeout (.vDur DefaultGracefulTimeout)
  let v := v.setDefault varAuthClientLibraryURL (.vStr DefaultAuthClientLibraryURL)
  let v := v.setDefault varAuthClientConfigContentType (.vStr DefaultAuthClientConfigContentType)
  let v := v.setDefault varAuthClientPublicKeysURL (.vStr DefaultAuthClientPublicKeysURL)
  let v := v.setDefault varNamespace (.vStr DefaultNamespace)
  let v := v.setDefault varAuthClientConfigRaw (.vStr DefaultAuthClientConfigRaw)
  let v := v.setDefault varVerificationEnabled (.vBool DefaultVerificationEnabled)
  let v := v.setDefault varVerificationDailyLimit (.vInt DefaultVerificationDailyLimit)
  let v := v.setDefault varVerificationAttemptsAllowed (.vInt DefaultVerificationAttemptsAllowed)
  let v := v.setDefault varVerificationMessageTemplate (.vStr DefaultVerificationMessageTemplate)
  let v := v.setDefault varVerificationCodeExpiresInMin (.vInt DefaultVerificationCodeExpiresInMin)
  v

/-- Create the initial configuration (`initConfig`): fresh store, env
binding, defaults, and the derived excluded-domain list. -/
def initConfig (secret : List (String × String)) (cm : KVMap)
    (env : List (String × CVal)) : ViperConfig :=
  let v := setConfigDefaults (Viper.new cm env)
  { v := v
    secretValues := secret
    excludedDomains :=
      splitCommaFields (v.getString varVerificationExcludedEmailDomains) }

/-- Inputs of construction: the process environment, the outcomes of the
two external loaders, the values bound via environment variables, the
config file path, and the outcome of reading/parsing that file. -/
structure ConstructIn where
  osEnv : List (String × String)
  secretLoad : Except String (List (String × String))
  configMapLoad : Except String KVMap
  envVals : List (String × CVal)
  configFilePath : String
  fileRead : Except String KVMap

/-- Load the initial configuration (`LoadConfig`): sets the two
`HOST_OPERATOR_*` process environment variables, invokes the secret
loader then the config-map loader, failing construction when either
fails; returns the result together with the final process environment. -/
def LoadConfig (i : ConstructIn) :
    Except String ViperConfig × List (String × String) :=
  let os1 := assocSet i.osEnv "HOST_OPERATOR_SECRET_NAME" "host-operator-secret"
  match i.secretLoad with
  | .error e => (.error e, os1)
  | .ok secret =>
    let os2 := assocSet os1 "HOST_OPERATOR_CONFIG_MAP_NAME" "host-operator-config"
    match i.configMapLoad with
    | .error e => (.error e, os2)
    | .ok cm => (.ok (initConfig secret cm i.envVals), os2)

/-- Create a configuration reader (`New`): loads the initial
configuration, then, when the file path is non-empty, reads the YAML
file (wrapping a read failure) and conditionally re-derives the
excluded-domain list. -/
def New (i : ConstructIn) :
    Except String ViperConfig × List (String × String) :=
  match LoadConfig i with
  | (.error e, os) => (.error e, os)
  | (.ok c, os) =>
    if i.configFilePath ≠ "" then
      match i.fileRead with
      | .error e => (.error ("failed to read config file: " ++ e), os)
      | .ok fd =>
        let v := c.v.readInConfig fd
        let c1 : ViperConfig := { c with v := v }
        let c2 : ViperConfig :=
          if v.getString varVerificationExcludedEmailDomains ≠ "" then
            { c1 with
              excludedDomains :=
                splitCommaFields (v.getString varVerificationExcludedEmailDomains) }
          else c1
        (.ok c2, os)
    else (.ok c, os)

/-- Keys currently present in the key/value store (`c.v.AllKeys()`):
defaults, config map and file layers. -/
def allKeys (v : Viper) : List String :=
  ((v.defaults.map Prod.fst) ++ (v.configMap.map Prod.fst) ++
    (v.fileVals.map Prod.fst)).dedup

/-- Emit every currently-resolved key/value pair (`PrintConfig`): the
logged output, modelled as the list of key/value pairs attached to the
log record. -/
def PrintConfig (c : ViperConfig) : List (String × Option CVal) :=
  (allKeys c.v).map (fun k => (k, c.v.get k))

def GetHTTPAddress (c : ViperConfig) : String := c.v.getString varHTTPAddress

def GetHTTPCompressResponses (c : ViperConfig) : Bool :=
  c.v.getBool varHTTPCompressResponses

def GetHTTPWriteTimeout (c : ViperConfig) : Int :=
  c.v.getDuration varHTTPWriteTimeout

def GetHTTPReadTimeout (c : ViperConfig) : Int :=
  c.v.getDuration varHTTPReadTimeout

def GetHTTPIdleTimeout (c : ViperConfig) : Int :=
  c.v.getDuration varHTTPIdleTimeout

def GetEnvironment (c : ViperConfig) : String := c.v.getString varEnvironment

def GetLogLevel (c : ViperConfig) : String := c.v.getString varLogLevel

def IsLogJSON (c : ViperConfig) : Bool := c.v.getBool varLogJSON

def GetGracefulTimeout (c : ViperConfig) : Int :=
  c.v.getDuration varGracefulTimeout

/-- Testing-mode predicate: compares the environment accessor with the
reserved sentinel (`IsTestingMode`). -/
def IsTestingMode (c : ViperConfig) : Bool :=
  GetEnvironment c == UnitTestsEnvironment

def GetAuthClientLibraryURL (c : ViperConfig) : String :=
  c.v.getString varAuthClientLibraryURL

def GetAuthClientConfigAuthContentType (c : ViperConfig) : String :=
  c.v.getString varAuthClientConfigContentType

def GetAuthClientConfigAuthRaw (c : ViperConfig) : String :=
  c.v.getString varAuthClientConfigRaw

/-- Twilio account identifier: a Go map read, whose zero value on a
missing key is the empty string (`GetTwilioAccountSID`). -/
def GetTwilioAccountSID (c : ViperConfig) : String :=
  (assocGet c.secretValues varTwilioAccountSID).getD ""

def GetTwilioAuthToken (c : ViperConfig) : String :=
  (assocGet c.secretValues varTwilioAuthToken).getD ""

def GetAuthClientPublicKeysURL (c : ViperConfig) : String :=
  c.v.getString varAuthClientPublicKeysURL

def GetNamespace (c : ViperConfig) : String := c.v.getString varNamespace

def GetVerificationEnabled (c : ViperConfig) : Bool :=
  c.v.getBool varVerificationEnabled

def GetVerificationDailyLimit (c : ViperConfig) : Int :=
  c.v.getInt varVerificationDailyLimit

def GetVerificationAttemptsAllowed (c : ViperConfig) : Int :=
  c.v.getInt varVerificationAttemptsAllowed

def GetVerificationMessageTemplate (c : ViperConfig) : String :=
  c.v.getString varVerificationMessageTemplate

def GetVerificationExcludedEmailDomains (c : ViperConfig) : List String :=
  c.excludedDomains

def GetTwilioFromNumber (c : ViperConfig) : String :=
  (assocGet c.secretValues varTwilioFromNumber).getD ""

def GetVerificationCodeExpiresInMin (c : ViperConfig) : Int :=
  c.v.getInt varVerificationCodeExpiresInMin

def GetWoopraDomain (c : ViperConfig) : String :=
  c.v.getString varWoopraDomain

def GetSegmentWriteKey (c : ViperConfig) : String :=
  c.v.getString varSegmentWriteKey

/-- Construction input with no environment variables, no file, empty
secret and config-map data, and working loaders. -/
def emptyIn : ConstructIn :=
  { osEnv := []
    secretLoad := .ok []
    configMapLoad := .ok []
    envVals := []
    configFilePath := ""
    fileRead := .ok [] }

/-- The configuration produced from empty inputs. -/
def defaultConfig : ViperConfig := initConfig [] [] []

/-- Keys with a registered default after `setConfigDefaults` on a fresh
store, in registration order. -/
def registeredDefaultKeys : List String :=
  ((setConfigDefaults (Viper.new [] [])).defaults).map Prod.fst

/-- Configuration whose secret map holds one Twilio value. -/
def secretCfgA : ViperConfig :=
  initConfig [("twilio.account.sid", "sid-value-1")] [] []

/-- Configuration identical to `secretCfgA` except for the secret map. -/
def secretCfgB : ViperConfig :=
  initConfig [("twilio.account.sid", "sid-value-2")] [] []

/-- Process environment holding stale values for both operator
variables. -/
def staleOSEnv : List (String × String) :=
  [("HOST_OPERATOR_SECRET_NAME", "stale-secret-name"),
   ("HOST_OPERATOR_CONFIG_MAP_NAME", "stale-config-map-name")]

/-- Construction input whose process environment holds stale operator
variable values. -/
def staleEnvIn : ConstructIn :=
  { osEnv := staleOSEnv
    secretLoad := .ok []
    configMapLoad := .ok []
    envVals := []
    configFilePath := ""
    fileRead := .ok [] }

/-- Construction input whose secret loader fails. -/
def secretFailIn : ConstructIn := { emptyIn with secretLoad := .error "secret boom" }

/-- Construction input with a file path whose read fails. -/
def fileFailIn : ConstructIn :=
  { emptyIn with
    configFilePath := "config.yaml"
    fileRead := .error "no such file" }

/-- Shared secret mapping used in the C3 witness. -/
def twilioSecret : List (String × String) :=
  [("twilio.account.sid", "AC-123"),
   ("twilio.auth.token", "tok-456"),
   ("twilio.from_number", "+15550100")]

/-- First C3 witness input: plain construction from the shared secret. -/
def twilioIn1 : ConstructIn :=
  { emptyIn with secretLoad := .ok twilioSecret }

/-- Second C3 witness input: same secret, different environment values
and config map. -/
def twilioIn2 : ConstructIn :=
  { emptyIn with
    secretLoad := .ok twilioSecret
    configMapLoad := .ok [("woopra.domain", CVal.vStr "woopra.example")]
    envVals := [("REGISTRATION_ENVIRONMENT", CVal.vStr "stage")] }

/-- First C3 witness configuration. -/
def twilioCfg1 : ViperConfig := initConfig twilioSecret [] []

/-- Second C3 witness configuration. -/
def twilioCfg2 : ViperConfig :=
  initConfig twilioSecret [("woopra.domain", CVal.vStr "woopra.example")]
    [("REGISTRATION_ENVIRONMENT", CVal.vStr "stage")]

/-- String value the file supplies for the excluded-domains option (the
empty string when the file supplies none, or a non-string value). -/
def fileExclStr (fd : KVMap) : String :=
  asStringD (assocGet fd varVerificationExcludedEmailDomains)

/-- File data supplying a non-empty excluded-domains value. -/
def c6FD : KVMap :=
  [(varVerificationExcludedEmailDomains, CVal.vStr "gitlab.com,example.org")]

/-- Construction input loading `c6FD` from a file. -/
def c6In : ConstructIn :=
  { emptyIn with configFilePath := "cfg.yaml", fileRead := .ok c6FD }

/-- The configuration `New` produces on `c6In`. -/
def c6Cfg : ViperConfig :=
  { v := (initConfig [] [] []).v.readInConfig c6FD
    secretValues := []
    excludedDomains :=
      splitCommaFields
        (((initConfig [] [] []).v.readInConfig c6FD).getString
          varVerificationExcludedEmailDomains) }

/-- File layer actually merged by construction: the parsed file data when
a file path was given and its read succeeded, and the empty layer
otherwise. -/
def effFileVals (i : ConstructIn) : KVMap :=
  if i.configFilePath = "" then []
  else
    match i.fileRead with
    | .ok fd => fd
    | .error _ => []

/-- Modelled from the spec: the merged view of one key as the spec states
it — the file value (if a file was given) overrides the environment
value, which overrides the config-map value, which overrides the
registered default. -/
def mergedAt (fileV : KVMap) (env : List (String × CVal)) (cm : KVMap)
    (k ek : String) (d : Option CVal) : Option CVal :=
  Option.or (assocGet fileV k)
    (Option.or (assocGet env ek) (Option.or (assocGet cm k) d))

/-- Environment binding supplying a non-empty excluded-domains value. -/
def counterexEnv : List (String × CVal) :=
  [("REGISTRATION_VERIFICATION_EXCLUDED_EMAIL_DOMAINS", CVal.vStr "redhat.com")]

/-- File data supplying an explicit empty excluded-domains value. -/
def counterexFD : KVMap := [(varVerificationExcludedEmailDomains, CVal.vStr "")]

/-- Construction input for the C1 counterexample: the file supplies an
empty excluded-domains string while the environment supplies
"redhat.com". -/
def counterexIn : ConstructIn :=
  { osEnv := []
    secretLoad := .ok []
    configMapLoad := .ok []
    envVals := counterexEnv
    configFilePath := "config.yaml"
    fileRead := .ok counterexFD }

/-- The configuration `New` produces on `counterexIn`. -/
def counterexCfg : ViperConfig :=
  { v := (initConfig [] [] counterexEnv).v.readInConfig counterexFD
    secretValues := []
    excludedDomains := (initConfig [] [] counterexEnv).excludedDomains }

/-- Config map used by the C1 witness input. -/
def mergedWCM : KVMap := [(varNamespace, CVal.vStr "cm-namespace")]

/-- Environment binding used by the C1 witness input. -/
def mergedWEnv : List (String × CVal) :=
  [("REGISTRATION_LOG_LEVEL", CVal.vStr "debug"),
   ("REGISTRATION_NAMESPACE", CVal.vStr "env-namespace")]

/-- File data used by the C1 witness input. -/
def mergedWFD : KVMap := [(varEnvironment, CVal.vStr "stage")]

/-- Construction input exercising all precedence levels at once. -/
def mergedWIn : ConstructIn :=
  { osEnv := []
    secretLoad := .ok []
    configMapLoad := .ok mergedWCM
    envVals := mergedWEnv
    configFilePath := "cfg.yaml"
    fileRead := .ok mergedWFD }

/-- The configuration `New` produces on `mergedWIn`. -/
def mergedWCfg : ViperConfig :=
  { v := (initConfig [] mergedWCM mergedWEnv).v.readInConfig mergedWFD
    secretValues := []
    excludedDomains := (initConfig [] mergedWCM mergedWEnv).excludedDomains }

/-- C2: constructing with no environment variable, no file value and no
config-map/secret input makes every accessor of a recognized key return
exactly the documented default. -/
theorem C2_absent_inputs_yield_documented_defaults :
    (New emptyIn).1 = .ok defaultConfig ∧
    GetHTTPAddress defaultConfig = "0.0.0.0:8080" ∧
    GetHTTPIdleTimeout defaultConfig = 15 * secondNS ∧
    GetHTTPCompressResponses defaultConfig = true ∧
    GetEnvironment defaultConfig = "prod" ∧
    GetLogLevel defaultConfig = "info" ∧
    IsLogJSON defaultConfig = false ∧
    GetGracefulTimeout defaultConfig = 15 * secondNS ∧
    GetHTTPWriteTimeout defaultConfig = 15 * secondNS ∧
    GetHTTPReadTimeout defaultConfig = 15 * secondNS ∧
    GetAuthClientLibraryURL defaultConfig = DefaultAuthClientLibraryURL ∧
    GetAuthClientConfigAuthRaw defaultConfig = DefaultAuthClientConfigRaw ∧
    GetAuthClientConfigAuthContentType defaultConfig
      = "application/json; charset=utf-8" ∧
    GetAuthClientPublicKeysURL defaultConfig = DefaultAuthClientPublicKeysURL ∧
    GetNamespace defaultConfig = "toolchain-host-operator" ∧
    GetVerificationEnabled defaultConfig = false ∧
    GetVerificationDailyLimit defaultConfig = 5 ∧
    GetVerificationAttemptsAllowed defaultConfig = 3 ∧
    GetVerificationMessageTemplate defaultConfig
      = DefaultVerificationMessageTemplate ∧
    GetVerificationExcludedEmailDomains defaultConfig = [] ∧
    GetVerificationCodeExpiresInMin defaultConfig = 5 ∧
    GetWoopraDomain defaultConfig = "" ∧
    GetSegmentWriteKey defaultConfig = "" := by
  refine ⟨rfl, rfl, rfl, rfl, rfl, rfl, rfl, rfl, rfl, rfl, rfl, rfl, rfl,
    rfl, rfl, rfl, rfl, rfl, rfl, rfl, rfl, rfl, rfl⟩

/-- C7: `IsTestingMode` returns true exactly when the environment
accessor returns the reserved sentinel, and in particular returns false
on the default environment. -/
theorem C7_testing_mode_iff_sentinel :
    ∀ c : ViperConfig,
      (IsTestingMode c = true ↔ GetEnvironment c = "unit-tests") ∧
      (GetEnvironment c = "prod" → IsTestingMode c = false) := by
  intro c
  constructor
  · simp [IsTestingMode, UnitTestsEnvironment]
  · intro h
    simp [IsTestingMode, UnitTestsEnvironment, h]

/-- C7 witness: the empty-input configuration has environment "prod" and
is not in testing mode. -/
theorem C7_testing_mode_iff_sentinel_witness :
    GetEnvironment defaultConfig = "prod" ∧ IsTestingMode defaultConfig = false :=
  ⟨rfl, (C7_testing_mode_iff_sentinel defaultConfig).2 rfl⟩

lemma assocGet_assocSet_self {β : Type} (m : List (String × β)) (k : String) (x : β) :
    assocGet (assocSet m k x) k = some x := by
  induction m with
  | nil => simp [assocSet, assocGet]
  | cons p rest ih =>
    by_cases h : p.1 = k
    · simp [assocSet, h, assocGet]
    · simp [assocSet, h, assocGet, ih]

lemma assocGet_assocSet_ne {β : Type} (m : List (String × β)) (k k' : String) (x : β)
    (h : k ≠ k') : assocGet (assocSet m k x) k' = assocGet m k' := by
  induction m with
  | nil => simp [assocSet, assocGet, h]
  | cons p rest ih =>
    by_cases hp : p.1 = k
    · simp [assocSet, assocGet, hp, h]
    · simp [assocSet, assocGet, hp, ih]

/-- C8 counterexample: construction does not register a default for
every recognized option of the section-6 table — the excluded-domains,
woopra-domain and segment-write-key options have no `SetDefault` call. -/
theorem C8_counterexample_missing_defaults :
    ¬ (varVerificationExcludedEmailDomains ∈ registeredDefaultKeys ∧
       varWoopraDomain ∈ registeredDefaultKeys ∧
       varSegmentWriteKey ∈ registeredDefaultKeys) := by
  decide

/-- C8 amended: construction registers exactly one default per recognized
option except `verification.excluded_email_domains`, `woopra.domain`
and `segment.write_key`, which get no registered default; the
registrations do not depend on the config-map or environment inputs. -/
theorem C8_amended_registered_defaults :
    registeredDefaultKeys =
      [varHTTPAddress, varHTTPCompressResponses, varHTTPWriteTimeout,
       varHTTPReadTimeout, varHTTPIdleTimeout, varEnvironment, varLogLevel,
       varLogJSON, varGracefulTimeout, varAuthClientLibraryURL,
       varAuthClientConfigContentType, varAuthClientPublicKeysURL,
       varNamespace, varAuthClientConfigRaw, varVerificationEnabled,
       varVerificationDailyLimit, varVerificationAttemptsAllowed,
       varVerificationMessageTemplate, varVerificationCodeExpiresInMin] ∧
    varVerificationExcludedEmailDomains ∉ registeredDefaultKeys ∧
    varWoopraDomain ∉ registeredDefaultKeys ∧
    varSegmentWriteKey ∉ registeredDefaultKeys ∧
    (∀ cm env, ((setConfigDefaults (Viper.new cm env)).defaults).map Prod.fst
        = registeredDefaultKeys) := by
  refine ⟨rfl, by decide, by decide, by decide, fun cm env => rfl⟩

/-- C5: the excluded-domain accessor is the comma-split of the
excluded-domains configuration string; on "redhat.com,ibm.com" it
returns the two domains, on the empty source value it returns the empty
sequence. -/
theorem C5_excluded_domains_comma_split :
    (∀ secret cm env,
      GetVerificationExcludedEmailDomains (initConfig secret cm env)
        = splitCommaFields
            ((initConfig secret cm env).v.getString
              varVerificationExcludedEmailDomains)) ∧
    GetVerificationExcludedEmailDomains
      (initConfig [] []
        [("REGISTRATION_VERIFICATION_EXCLUDED_EMAIL_DOMAINS",
          CVal.vStr "redhat.com,ibm.com")])
      = ["redhat.com", "ibm.com"] ∧
    GetVerificationExcludedEmailDomains (initConfig [] [] []) = [] ∧
    splitCommaFields "redhat.com,ibm.com" = ["redhat.com", "ibm.com"] ∧
    splitCommaFields "" = [] := by
  refine ⟨fun secret cm env => rfl, by decide, rfl, by decide, rfl⟩

/-- C9: the logged output of `PrintConfig` mentions only keys present in
the key/value store, and is identical for any two configurations that
agree on the key/value store, whatever their secret mappings. -/
theorem C9_print_config_ignores_secrets :
    ∀ c1 c2 : ViperConfig, c1.v = c2.v →
      PrintConfig c1 = PrintConfig c2 ∧
      ∀ p ∈ PrintConfig c1, p.1 ∈ allKeys c1.v := by
  intro c1 c2 h
  constructor
  · simp [PrintConfig, h]
  · intro p hp
    simp only [PrintConfig, List.mem_map] at hp
    obtain ⟨k, hk, hEq⟩ := hp
    rw [← hEq]
    exact hk

/-- C9 witness: two configurations with the same store but different
secret maps log the same output, which mentions only store keys. -/
theorem C9_print_config_ignores_secrets_witness :
    PrintConfig secretCfgA = PrintConfig secretCfgB ∧
    ∀ p ∈ PrintConfig secretCfgA, p.1 ∈ allKeys secretCfgA.v :=
  C9_print_config_ignores_secrets secretCfgA secretCfgB rfl

/-- C10: construction always sets `HOST_OPERATOR_SECRET_NAME` to
"host-operator-secret" in the process environment, sets
`HOST_OPERATOR_CONFIG_MAP_NAME` to "host-operator-config" whenever the
secret load succeeds, and `New` leaves exactly the environment that
`LoadConfig` produced. -/
theorem C10_construction_mutates_process_env :
    ∀ i : ConstructIn,
      assocGet (LoadConfig i).2 "HOST_OPERATOR_SECRET_NAME"
        = some "host-operator-secret" ∧
      (∀ s, i.secretLoad = .ok s →
        assocGet (LoadConfig i).2 "HOST_OPERATOR_CONFIG_MAP_NAME"
          = some "host-operator-config") ∧
      (New i).2 = (LoadConfig i).2 := by
  intro i
  refine ⟨?_, ?_, ?_⟩
  · unfold LoadConfig
    cases hs : i.secretLoad with
    | error e => simpa using assocGet_assocSet_self i.osEnv _ _
    | ok s =>
      cases hcm : i.configMapLoad with
      | error e =>
        simp only []
        rw [assocGet_assocSet_ne _ _ _ _ (by decide)]
        exact assocGet_assocSet_self i.osEnv _ _
      | ok cm =>
        simp only []
        rw [assocGet_assocSet_ne _ _ _ _ (by decide)]
        exact assocGet_assocSet_self i.osEnv _ _
  · intro s hs
    unfold LoadConfig
    rw [hs]
    cases hcm : i.configMapLoad with
    | error e => exact assocGet_assocSet_self _ _ _
    | ok cm => exact assocGet_assocSet_self _ _ _
  · unfold New
    rcases hL : LoadConfig i with ⟨r, os⟩
    cases r with
    | error e => simp
    | ok c =>
      by_cases hp : i.configFilePath ≠ ""
      · cases hf : i.fileRead with
        | error e => simp [hp, hf]
        | ok fd => simp [hp, hf]
      · simp [hp]

/-- C10 witness: on an environment that already held other values for
both variables, construction overwrites them with the fixed names. -/
theorem C10_construction_mutates_process_env_witness :
    assocGet (LoadConfig staleEnvIn).2 "HOST_OPERATOR_SECRET_NAME"
      = some "host-operator-secret" ∧
    assocGet (LoadConfig staleEnvIn).2 "HOST_OPERATOR_CONFIG_MAP_NAME"
      = some "host-operator-config" :=
  ⟨(C10_construction_mutates_process_env staleEnvIn).1,
   (C10_construction_mutates_process_env staleEnvIn).2.1 [] rfl⟩

/-- C4: construction is all-or-nothing — a secret-loader failure, a
config-map-loader failure, or (with a non-empty file path) a file
read/parse failure each yield an error (the file error wrapped with a
descriptive cause) and no configuration; with working loaders and an
empty path construction succeeds and never consults the file reader. -/
theorem C4_construction_all_or_nothing :
    ∀ i : ConstructIn,
      (∀ e, i.secretLoad = .error e → (New i).1 = .error e) ∧
      (∀ s e, i.secretLoad = .ok s → i.configMapLoad = .error e →
        (New i).1 = .error e) ∧
      (∀ s cm e, i.secretLoad = .ok s → i.configMapLoad = .ok cm →
        i.configFilePath ≠ "" → i.fileRead = .error e →
        (New i).1 = .error ("failed to read config file: " ++ e)) ∧
      (∀ s cm, i.secretLoad = .ok s → i.configMapLoad = .ok cm →
        i.configFilePath = "" →
        (New i).1 = .ok (initConfig s cm i.envVals)) ∧
      (∀ fr, i.configFilePath = "" →
        (New { i with fileRead := fr }).1 = (New i).1) := by
  intro i
  refine ⟨?_, ?_, ?_, ?_, ?_⟩
  · intro e hs
    simp [New, LoadConfig, hs]
  · intro s e hs hcm
    simp [New, LoadConfig, hs, hcm]
  · intro s cm e hs hcm hp hf
    simp [New, LoadConfig, hs, hcm, hp, hf]
  · intro s cm hs hcm hp
    simp [New, LoadConfig, hs, hcm, hp]
  · intro fr hp
    cases hs : i.secretLoad with
    | error e => simp [New, LoadConfig, hs]
    | ok s =>
      cases hcm : i.configMapLoad with
      | error e => simp [New, LoadConfig, hs, hcm]
      | ok cm => simp [New, LoadConfig, hs, hcm, hp]

/-- C4 witness: a failing secret loader propagates its error, a failing
file read yields the wrapped error, and empty-path construction with
working loaders succeeds. -/
theorem C4_construction_all_or_nothing_witness :
    (New secretFailIn).1 = .error "secret boom" ∧
    (New fileFailIn).1 = .error "failed to read config file: no such file" ∧
    (New emptyIn).1 = .ok (initConfig [] [] []) :=
  ⟨(C4_construction_all_or_nothing secretFailIn).1 "secret boom" rfl,
   (C4_construction_all_or_nothing fileFailIn).2.2.1 [] [] "no such file"
     rfl rfl (by decide) rfl,
   (C4_construction_all_or_nothing emptyIn).2.2.2.1 [] [] rfl rfl rfl⟩

lemma secretValues_of_New_ok (i : ConstructIn) (s : List (String × String))
    (c : ViperConfig) (hs : i.secretLoad = .ok s) (h : (New i).1 = .ok c) :
    c.secretValues = s := by
  cases hcm : i.configMapLoad with
  | error e =>
    simp [New, LoadConfig, hs, hcm] at h
  | ok cm =>
    by_cases hp : i.configFilePath = ""
    · simp [New, LoadConfig, hs, hcm, hp] at h
      rw [← h]
      rfl
    · cases hf : i.fileRead with
      | error e => simp [New, LoadConfig, hs, hcm, hp, hf] at h
      | ok fd =>
        simp [New, LoadConfig, hs, hcm, hp, hf] at h
        split at h <;> rw [← h] <;> rfl

/-- C3: the three Twilio accessors depend only on the loaded secret
mapping — two successful constructions from the same secret mapping
agree on all three, whatever their environment, config-map or file
inputs. -/
theorem C3_twilio_reads_only_secret_mapping :
    ∀ i1 i2 : ConstructIn, ∀ s : List (String × String),
      ∀ c1 c2 : ViperConfig,
      i1.secretLoad = .ok s → i2.secretLoad = .ok s →
      (New i1).1 = .ok c1 → (New i2).1 = .ok c2 →
      GetTwilioAccountSID c1 = GetTwilioAccountSID c2 ∧
      GetTwilioAuthToken c1 = GetTwilioAuthToken c2 ∧
      GetTwilioFromNumber c1 = GetTwilioFromNumber c2 := by
  intro i1 i2 s c1 c2 hs1 hs2 h1 h2
  have e1 := secretValues_of_New_ok i1 s c1 hs1 h1
  have e2 := secretValues_of_New_ok i2 s c2 hs2 h2
  refine ⟨?_, ?_, ?_⟩ <;>
    simp [GetTwilioAccountSID, GetTwilioAuthToken, GetTwilioFromNumber, e1, e2]

/-- C3 witness: two constructions sharing the secret mapping but
differing in config map and environment agree on the Twilio
accessors. -/
theorem C3_twilio_reads_only_secret_mapping_witness :
    GetTwilioAccountSID twilioCfg1 = GetTwilioAccountSID twilioCfg2 ∧
    GetTwilioAuthToken twilioCfg1 = GetTwilioAuthToken twilioCfg2 ∧
    GetTwilioFromNumber twilioCfg1 = GetTwilioFromNumber twilioCfg2 :=
  C3_twilio_reads_only_secret_mapping twilioIn1 twilioIn2 twilioSecret
    twilioCfg1 twilioCfg2 rfl rfl rfl rfl

lemma getString_readIn_of_none (v : Viper) (fd : KVMap) (k : String)
    (hfd : assocGet fd k = none) (hv : v.fileVals = []) :
    (v.readInConfig fd).getString k = v.getString k := by
  simp [Viper.readInConfig, Viper.getString, Viper.get, hfd, hv, assocGet]

lemma getString_readIn_of_some (v : Viper) (fd : KVMap) (k : String) (x : CVal)
    (hfd : assocGet fd k = some x) :
    (v.readInConfig fd).getString k = asStringD (some x) := by
  simp [Viper.readInConfig, Viper.getString, Viper.get, hfd]

lemma initConfig_fileVals (s : List (String × String)) (cm : KVMap)
    (env : List (String × CVal)) : (initConfig s cm env).v.fileVals = [] := rfl

/-- C6: after a successful file load, the excluded-domain list equals the
comma-split of the string the file supplies when that string is
non-empty, and otherwise equals the list derived before the file was
loaded. -/
theorem C6_file_rederivation_condition :
    ∀ i : ConstructIn, ∀ s : List (String × String), ∀ cm fd : KVMap,
      ∀ c : ViperConfig,
      i.secretLoad = .ok s → i.configMapLoad = .ok cm →
      i.configFilePath ≠ "" → i.fileRead = .ok fd →
      (New i).1 = .ok c →
      (fileExclStr fd ≠ "" →
        c.excludedDomains = splitCommaFields (fileExclStr fd)) ∧
      (fileExclStr fd = "" →
        c.excludedDomains = (initConfig s cm i.envVals).excludedDomains) := by
  intro i s cm fd c hs hcm hp hf h
  by_cases hg : ((initConfig s cm i.envVals).v.readInConfig fd).getString
      varVerificationExcludedEmailDomains = ""
  · simp [New, LoadConfig, hs, hcm, hp, hf, hg] at h
    constructor
    · intro hne
      rcases hfd : assocGet fd varVerificationExcludedEmailDomains with _ | x
      · exact absurd (by simp [fileExclStr, hfd, asStringD]) hne
      · cases x with
        | vStr s0 =>
          rw [getString_readIn_of_some _ _ _ _ hfd] at hg
          simp only [asStringD] at hg
          exact absurd (by simp [fileExclStr, hfd, asStringD, hg]) hne
        | vBool b => exact absurd (by simp [fileExclStr, hfd, asStringD]) hne
        | vInt n => exact absurd (by simp [fileExclStr, hfd, asStringD]) hne
        | vDur d => exact absurd (by simp [fileExclStr, hfd, asStringD]) hne
    · intro heq
      rw [← h]
  · simp [New, LoadConfig, hs, hcm, hp, hf, hg] at h
    constructor
    · intro hne
      rcases hfd : assocGet fd varVerificationExcludedEmailDomains with _ | x
      · exact absurd (by simp [fileExclStr, hfd, asStringD]) hne
      · cases x with
        | vStr s0 =>
          rw [← h]
          simp only [fileExclStr, hfd]
          rw [getString_readIn_of_some _ _ _ _ hfd]
        | vBool b =>
          exact absurd (getString_readIn_of_some _ fd _ _ hfd) hg
        | vInt n =>
          exact absurd (getString_readIn_of_some _ fd _ _ hfd) hg
        | vDur d =>
          exact absurd (getString_readIn_of_some _ fd _ _ hfd) hg
    · intro heq
      rcases hfd : assocGet fd varVerificationExcludedEmailDomains with _ | x
      · rw [← h]
        simp only []
        rw [getString_readIn_of_none _ _ _ hfd (initConfig_fileVals s cm i.envVals)]
        rfl
      · cases x with
        | vStr s0 =>
          have hs0 : s0 = "" := by simpa [fileExclStr, hfd, asStringD] using heq
          rw [getString_readIn_of_some _ _ _ _ hfd, hs0] at hg
          exact absurd rfl hg
        | vBool b =>
          exact absurd (getString_readIn_of_some _ fd _ _ hfd) hg
        | vInt n =>
          exact absurd (getString_readIn_of_some _ fd _ _ hfd) hg
        | vDur d =>
          exact absurd (getString_readIn_of_some _ fd _ _ hfd) hg

set_option maxHeartbeats 4000000 in
/-- C6 witness: the file supplies "gitlab.com,example.org", so the list is
re-derived to the two file-supplied domains. -/
theorem C6_file_rederivation_condition_witness :
    fileExclStr c6FD = "gitlab.com,example.org" ∧
    c6Cfg.excludedDomains = ["gitlab.com", "example.org"] := by
  have h := C6_file_rederivation_condition c6In [] [] c6FD c6Cfg rfl rfl
    (by decide) rfl rfl
  exact ⟨by decide, (h.1 (by decide)).trans (by decide)⟩

lemma viper_get_eq_mergedAt (dfl cm : KVMap) (env : List (String × CVal))
    (fileV : KVMap) (k : String) :
    Viper.get (Viper.mk dfl cm env fileV) k
      = mergedAt fileV env cm k (envKeyOf k) (assocGet dfl k) := by
  unfold Viper.get mergedAt
  cases assocGet fileV k <;> cases assocGet env (envKeyOf k) <;>
    cases assocGet cm k <;> simp [Option.or]

set_option maxHeartbeats 4000000 in
/-- The defaults registered by `setConfigDefaults` as a literal list, in
registration order, independent of the other store layers. -/
lemma defaults_concrete (cm : KVMap) (env : List (String × CVal)) :
    (setConfigDefaults (Viper.new cm env)).defaults =
      [(varHTTPAddress, CVal.vStr DefaultHTTPAddress),
       (varHTTPCompressResponses, CVal.vBool DefaultHTTPCompressResponses),
       (varHTTPWriteTimeout, CVal.vDur DefaultHTTPWriteTimeout),
       (varHTTPReadTimeout, CVal.vDur DefaultHTTPReadTimeout),
       (varHTTPIdleTimeout, CVal.vDur DefaultHTTPIdleTimeout),
       (varEnvironment, CVal.vStr DefaultEnvironment),
       (varLogLevel, CVal.vStr DefaultLogLevel),
       (varLogJSON, CVal.vBool DefaultLogJSON),
       (varGracefulTimeout, CVal.vDur DefaultGracefulTimeout),
       (varAuthClientLibraryURL, CVal.vStr DefaultAuthClientLibraryURL),
       (varAuthClientConfigContentType, CVal.vStr DefaultAuthClientConfigContentType),
       (varAuthClientPublicKeysURL, CVal.vStr DefaultAuthClientPublicKeysURL),
       (varNamespace, CVal.vStr DefaultNamespace),
       (varAuthClientConfigRaw, CVal.vStr DefaultAuthClientConfigRaw),
       (varVerificationEnabled, CVal.vBool DefaultVerificationEnabled),
       (varVerificationDailyLimit, CVal.vInt DefaultVerificationDailyLimit),
       (varVerificationAttemptsAllowed, CVal.vInt DefaultVerificationAttemptsAllowed),
       (varVerificationMessageTemplate, CVal.vStr DefaultVerificationMessageTemplate),
       (varVerificationCodeExpiresInMin, CVal.vInt DefaultVerificationCodeExpiresInMin)] := by
  rfl

set_option maxHeartbeats 4000000 in
lemma v_of_New_ok (i : ConstructIn) (s : List (String × String)) (cm : KVMap)
    (c : ViperConfig) (hs : i.secretLoad = .ok s) (hcm : i.configMapLoad = .ok cm)
    (h : (New i).1 = .ok c) :
    c.v = Viper.mk ((setConfigDefaults (Viper.new cm i.envVals)).defaults) cm
      i.envVals (effFileVals i) := by
  by_cases hp : i.configFilePath = ""
  · simp [New, LoadConfig, hs, hcm, hp] at h
    rw [← h, (by simp [effFileVals, hp] : effFileVals i = [])]
    rfl
  · cases hf : i.fileRead with
    | error e => simp [New, LoadConfig, hs, hcm, hp, hf] at h
    | ok fd =>
      simp [New, LoadConfig, hs, hcm, hp, hf] at h
      split at h <;> rw [← h, (by simp [effFileVals, hp, hf] : effFileVals i = fd)] <;> rfl

set_option maxHeartbeats 4000000 in
lemma initConfig_excl (s : List (String × String)) (cm : KVMap)
    (env : List (String × CVal)) :
    (initConfig s cm env).excludedDomains
      = splitCommaFields (asStringD (mergedAt [] env cm
          varVerificationExcludedEmailDomains
          "REGISTRATION_VERIFICATION_EXCLUDED_EMAIL_DOMAINS" none)) := by
  have h1 : (initConfig s cm env).excludedDomains
      = splitCommaFields (asStringD ((Viper.mk
          ((setConfigDefaults (Viper.new cm env)).defaults) cm env []).get
          varVerificationExcludedEmailDomains)) := rfl
  rw [h1, viper_get_eq_mergedAt, defaults_concrete]
  rfl

set_option maxHeartbeats 4000000 in
/-- C1 amended: for every recognized non-secret key other than the
excluded-domains option, every successful construction makes the
accessor return the highest-precedence value present — explicit file
value (when a file was given), else bound environment value, else
config-map value, else registered default (empty absence value when no
default is registered).  The excluded-domains accessor returns the
comma-split of that merged string, except that when a file was given
and the string it supplies for the option is empty, the list derived
from the pre-file merged view is retained. -/
theorem C1_amended_merged_view_precedence :
    ∀ i : ConstructIn, ∀ s : List (String × String), ∀ cm : KVMap,
      ∀ c : ViperConfig,
      i.secretLoad = .ok s → i.configMapLoad = .ok cm →
      (New i).1 = .ok c →
      GetHTTPAddress c = asStringD (mergedAt (effFileVals i) i.envVals cm
        varHTTPAddress "REGISTRATION_HTTP_ADDRESS"
        (some (CVal.vStr DefaultHTTPAddress))) ∧
      GetHTTPCompressResponses c = asBoolD (mergedAt (effFileVals i) i.envVals cm
        varHTTPCompressResponses "REGISTRATION_HTTP_COMPRESS"
        (some (CVal.vBool DefaultHTTPCompressResponses))) ∧
      GetHTTPWriteTimeout c = asDurD (mergedAt (effFileVals i) i.envVals cm
        varHTTPWriteTimeout "REGISTRATION_HTTP_WRITE_TIMEOUT"
        (some (CVal.vDur DefaultHTTPWriteTimeout))) ∧
      GetHTTPReadTimeout c = asDurD (mergedAt (effFileVals i) i.envVals cm
        varHTTPReadTimeout "REGISTRATION_HTTP_READ_TIMEOUT"
        (some (CVal.vDur DefaultHTTPReadTimeout))) ∧
      GetHTTPIdleTimeout c = asDurD (mergedAt (effFileVals i) i.envVals cm
        varHTTPIdleTimeout "REGISTRATION_HTTP_IDLE_TIMEOUT"
        (some (CVal.vDur DefaultHTTPIdleTimeout))) ∧
      GetEnvironment c = asStringD (mergedAt (effFileVals i) i.envVals cm
        varEnvironment "REGISTRATION_ENVIRONMENT"
        (some (CVal.vStr DefaultEnvironment))) ∧
      GetLogLevel c = asStringD (mergedAt (effFileVals i) i.envVals cm
        varLogLevel "REGISTRATION_LOG_LEVEL"
        (some (CVal.vStr DefaultLogLevel))) ∧
      IsLogJSON c = asBoolD (mergedAt (effFileVals i) i.envVals cm
        varLogJSON "REGISTRATION_LOG_JSON"
        (some (CVal.vBool DefaultLogJSON))) ∧
      GetGracefulTimeout c = asDurD (mergedAt (effFileVals i) i.envVals cm
        varGracefulTimeout "REGISTRATION_GRACEFUL_TIMEOUT"
        (some (CVal.vDur DefaultGracefulTimeout))) ∧
      GetAuthClientLibraryURL c = asStringD (mergedAt (effFileVals i) i.envVals cm
        varAuthClientLibraryURL "REGISTRATION_AUTH_CLIENT_LIBRARY_URL"
        (some (CVal.vStr DefaultAuthClientLibraryURL))) ∧
      GetAuthClientConfigAuthContentType c
        = asStringD (mergedAt (effFileVals i) i.envVals cm
            varAuthClientConfigContentType
            "REGISTRATION_AUTH_CLIENT_CONFIG_CONTENT_TYPE"
            (some (CVal.vStr DefaultAuthClientConfigContentType))) ∧
      GetAuthClientConfigAuthRaw c = asStringD (mergedAt (effFileVals i) i.envVals cm
        varAuthClientConfigRaw "REGISTRATION_AUTH_CLIENT_CONFIG_RAW"
        (some (CVal.vStr DefaultAuthClientConfigRaw))) ∧
      GetAuthClientPublicKeysURL c = asStringD (mergedAt (effFileVals i) i.envVals cm
        varAuthClientPublicKeysURL "REGISTRATION_AUTH_CLIENT_PUBLIC_KEYS_URL"
        (some (CVal.vStr DefaultAuthClientPublicKeysURL))) ∧
      GetNamespace c = asStringD (mergedAt (effFileVals i) i.envVals cm
        varNamespace "REGISTRATION_NAMESPACE"
        (some (CVal.vStr DefaultNamespace))) ∧
      GetVerificationEnabled c = asBoolD (mergedAt (effFileVals i) i.envVals cm
        varVerificationEnabled "REGISTRATION_VERIFICATION_ENABLED"
        (some (CVal.vBool DefaultVerificationEnabled))) ∧
      GetVerificationDailyLimit c = asIntD (mergedAt (effFileVals i) i.envVals cm
        varVerificationDailyLimit "REGISTRATION_VERIFICATION_DAILY_LIMIT"
        (some (CVal.vInt DefaultVerificationDailyLimit))) ∧
      GetVerificationAttemptsAllowed c
        = asIntD (mergedAt (effFileVals i) i.envVals cm
            varVerificationAttemptsAllowed
            "REGISTRATION_VERIFICATION_ATTEMPTS_ALLOWED"
            (some (CVal.vInt DefaultVerificationAttemptsAllowed))) ∧
      GetVerificationMessageTemplate c
        = asStringD (mergedAt (effFileVals i) i.envVals cm
            varVerificationMessageTemplate
            "REGISTRATION_VERIFICATION_MESSAGE_TEMPLATE"
            (some (CVal.vStr DefaultVerificationMessageTemplate))) ∧
      GetVerificationCodeExpiresInMin c
        = asIntD (mergedAt (effFileVals i) i.envVals cm
            varVerificationCodeExpiresInMin
            "REGISTRATION_VERIFICATION_CODE_EXPIRES_IN_MIN"
            (some (CVal.vInt DefaultVerificationCodeExpiresInMin))) ∧
      GetWoopraDomain c = asStringD (mergedAt (effFileVals i) i.envVals cm
        varWoopraDomain "REGISTRATION_WOOPRA_DOMAIN" none) ∧
      GetSegmentWriteKey c = asStringD (mergedAt (effFileVals i) i.envVals cm
        varSegmentWriteKey "REGISTRATION_SEGMENT_WRITE_KEY" none) ∧
      GetVerificationExcludedEmailDomains c =
        (if i.configFilePath ≠ "" ∧ fileExclStr (effFileVals i) = "" then
          splitCommaFields (asStringD (mergedAt [] i.envVals cm
            varVerificationExcludedEmailDomains
            "REGISTRATION_VERIFICATION_EXCLUDED_EMAIL_DOMAINS" none))
        else
          splitCommaFields (asStringD (mergedAt (effFileVals i) i.envVals cm
            varVerificationExcludedEmailDomains
            "REGISTRATION_VERIFICATION_EXCLUDED_EMAIL_DOMAINS" none))) := by
  intro i s cm c hs hcm h
  have hv := v_of_New_ok i s cm c hs hcm h
  rw [defaults_concrete] at hv
  refine ⟨?_, ?_, ?_, ?_, ?_, ?_, ?_, ?_, ?_, ?_, ?_, ?_, ?_, ?_, ?_, ?_,
    ?_, ?_, ?_, ?_, ?_, ?_⟩
  · simp only [GetHTTPAddress, Viper.getString, hv, viper_get_eq_mergedAt]
    rfl
  · simp only [GetHTTPCompressResponses, Viper.getBool, hv, viper_get_eq_mergedAt]
    rfl
  · simp only [GetHTTPWriteTimeout, Viper.getDuration, hv, viper_get_eq_mergedAt]
    rfl
  · simp only [GetHTTPReadTimeout, Viper.getDuration, hv, viper_get_eq_mergedAt]
    rfl
  · simp only [GetHTTPIdleTimeout, Viper.getDuration, hv, viper_get_eq_mergedAt]
    rfl
  · simp only [GetEnvironment, Viper.getString, hv, viper_get_eq_mergedAt]
    rfl
  · simp only [GetLogLevel, Viper.getString, hv, viper_get_eq_mergedAt]
    rfl
  · simp only [IsLogJSON, Viper.getBool, hv, viper_get_eq_mergedAt]
    rfl
  · simp only [GetGracefulTimeout, Viper.getDuration, hv, viper_get_eq_mergedAt]
    rfl
  · simp only [GetAuthClientLibraryURL, Viper.getString, hv, viper_get_eq_mergedAt]
    rfl
  · simp only [GetAuthClientConfigAuthContentType, Viper.getString, hv,
      viper_get_eq_mergedAt]
    rfl
  · simp only [GetAuthClientConfigAuthRaw, Viper.getString, hv,
      viper_get_eq_mergedAt]
    rfl
  · simp only [GetAuthClientPublicKeysURL, Viper.getString, hv,
      viper_get_eq_mergedAt]
    rfl
  · simp only [GetNamespace, Viper.getString, hv, viper_get_eq_mergedAt]
    rfl
  · simp only [GetVerificationEnabled, Viper.getBool, hv, viper_get_eq_mergedAt]
    rfl
  · simp only [GetVerificationDailyLimit, Viper.getInt, hv, viper_get_eq_mergedAt]
    rfl
  · simp only [GetVerificationAttemptsAllowed, Viper.getInt, hv,
      viper_get_eq_mergedAt]
    rfl
  · simp only [GetVerificationMessageTemplate, Viper.getString, hv,
      viper_get_eq_mergedAt]
    rfl
  · simp only [GetVerificationCodeExpiresInMin, Viper.getInt, hv,
      viper_get_eq_mergedAt]
    rfl
  · simp only [GetWoopraDomain, Viper.getString, hv, viper_get_eq_mergedAt]
    rfl
  · simp only [GetSegmentWriteKey, Viper.getString, hv, viper_get_eq_mergedAt]
    rfl
  · by_cases hp : i.configFilePath = ""
    · have heff : effFileVals i = [] := by simp [effFileVals, hp]
      simp [New, LoadConfig, hs, hcm, hp] at h
      rw [if_neg (by simp [hp]), heff, ← h]
      exact initConfig_excl s cm i.envVals
    · cases hf : i.fileRead with
      | error e => simp [New, LoadConfig, hs, hcm, hp, hf] at h
      | ok fd =>
        have heff : effFileVals i = fd := by simp [effFileVals, hp, hf]
        by_cases hg : ((initConfig s cm i.envVals).v.readInConfig fd).getString
            varVerificationExcludedEmailDomains = ""
        · simp [New, LoadConfig, hs, hcm, hp, hf, hg] at h
          have hfe : fileExclStr fd = "" := by
            rcases hfd : assocGet fd varVerificationExcludedEmailDomains with _ | x
            · simp [fileExclStr, hfd, asStringD]
            · cases x with
              | vStr s0 =>
                rw [getString_readIn_of_some _ _ _ _ hfd] at hg
                simp only [asStringD] at hg
                simp [fileExclStr, hfd, asStringD, hg]
              | vBool b => simp [fileExclStr, hfd, asStringD]
              | vInt n => simp [fileExclStr, hfd, asStringD]
              | vDur d => simp [fileExclStr, hfd, asStringD]
          rw [heff, if_pos ⟨hp, hfe⟩, ← h]
          exact initConfig_excl s cm i.envVals
        · simp [New, LoadConfig, hs, hcm, hp, hf, hg] at h
          rcases hfd : assocGet fd varVerificationExcludedEmailDomains with _ | x
          · rw [heff, if_pos ⟨hp, by simp [fileExclStr, hfd, asStringD]⟩, ← h]
            show splitCommaFields
                (((initConfig s cm i.envVals).v.readInConfig fd).getString
                  varVerificationExcludedEmailDomains) = _
            rw [getString_readIn_of_none _ _ _ hfd
              (initConfig_fileVals s cm i.envVals)]
            exact initConfig_excl s cm i.envVals
          · cases x with
            | vStr s0 =>
              have hs0 : s0 ≠ "" := by
                intro e
                exact hg (by
                  rw [getString_readIn_of_some _ _ _ _ hfd]
                  simp [asStringD, e])
              rw [heff, if_neg (fun hcon =>
                hs0 (by simpa [fileExclStr, hfd, asStringD] using hcon.2)), ← h]
              show splitCommaFields
                  (((initConfig s cm i.envVals).v.readInConfig fd).getString
                    varVerificationExcludedEmailDomains) = _
              rw [getString_readIn_of_some _ _ _ _ hfd]
              simp [mergedAt, hfd, Option.or, asStringD]
            | vBool b =>
              exact absurd (getString_readIn_of_some _ fd _ _ hfd) hg
            | vInt n =>
              exact absurd (getString_readIn_of_some _ fd _ _ hfd) hg
            | vDur d =>
              exact absurd (getString_readIn_of_some _ fd _ _ hfd) hg

set_option maxHeartbeats 4000000 in
/-- C1 counterexample: for the recognized non-secret key
`verification.excluded_email_domains`, the highest-precedence value
present in the merged view is the file-supplied empty string (whose
comma-split is the empty sequence), yet the accessor returns the list
derived from the lower-precedence environment value — so the accessor
does not return the highest-precedence value present. -/
theorem C1_counterexample_file_empty_value :
    (New counterexIn).1 = .ok counterexCfg ∧
    Viper.get counterexCfg.v varVerificationExcludedEmailDomains
      = some (CVal.vStr "") ∧
    splitCommaFields
      (Viper.getString counterexCfg.v varVerificationExcludedEmailDomains)
      = [] ∧
    GetVerificationExcludedEmailDomains counterexCfg = ["redhat.com"] := by
  exact ⟨rfl, rfl, rfl, rfl⟩

set_option maxHeartbeats 4000000 in
/-- C1 witness: on a concrete construction, the file value overrides the
default for `environment`, the environment value overrides both the
config-map value and the default for `namespace`, the environment value
overrides the default for `log.level`, and an untouched key keeps its
default. -/
theorem C1_amended_merged_view_precedence_witness :
    GetEnvironment mergedWCfg = "stage" ∧
    GetLogLevel mergedWCfg = "debug" ∧
    GetNamespace mergedWCfg = "env-namespace" ∧
    GetHTTPAddress mergedWCfg = "0.0.0.0:8080" := by
  have h := C1_amended_merged_view_precedence mergedWIn [] mergedWCM mergedWCfg
    rfl rfl rfl
  refine ⟨?_, ?_, ?_, ?_⟩
  · exact h.2.2.2.2.2.1.trans (by decide)
  · exact h.2.2.2.2.2.2.1.trans (by decide)
  · exact h.2.2.2.2.2.2.2.2.2.2.2.2.2.1.trans (by decide)
  · exact h.1.trans (by decide)
